import Mathlib

/-!
Shallow embedding of `src/helpers/src/recordpaintengine.cpp` (veusz), the
paint-command recording engine: one immutable `PaintElement` per drawing or
state-change notification, appended to the command log of a
`RecordPaintDevice`, and replayed later onto a `QPainter`.

Qt payload types (rectangles, lines, brushes, fonts, ...) are carried around
by the engine but never computed with: they are modelled as plain structures
over `Int`/`Nat`/`String` carriers, which the engine copies verbatim, exactly
as the C++ copies the Qt value types.
-/

/-- Coordinate carrier for the `qreal`-valued Qt geometry types.  The engine
only copies coordinates, never computes with them, so an exact carrier is
faithful. -/
abbrev Qreal := Int

structure QPointF where
  x : Qreal
  y : Qreal
deriving DecidableEq, Repr

structure QPoint where
  x : Int
  y : Int
deriving DecidableEq, Repr

structure QRectF where
  x : Qreal
  y : Qreal
  width : Qreal
  height : Qreal
deriving DecidableEq, Repr

structure QRect where
  x : Int
  y : Int
  width : Int
  height : Int
deriving DecidableEq, Repr

structure QLineF where
  x1 : Qreal
  y1 : Qreal
  x2 : Qreal
  y2 : Qreal
deriving DecidableEq, Repr

structure QLine where
  x1 : Int
  y1 : Int
  x2 : Int
  y2 : Int
deriving DecidableEq, Repr

/-- Image pixel payload: an identifier standing for the (value-copied) pixel
data, which the engine never inspects. -/
structure QImage where
  bits : Nat
deriving DecidableEq, Repr

structure QPixmap where
  bits : Nat
deriving DecidableEq, Repr

/-- Path geometry payload, copied verbatim by the engine. -/
structure QPainterPath where
  key : Nat
deriving DecidableEq, Repr

structure QRegion where
  key : Nat
deriving DecidableEq, Repr

structure QBrush where
  key : Nat
deriving DecidableEq, Repr

structure QPen where
  key : Nat
deriving DecidableEq, Repr

structure QFont where
  family : String
  pointSize : Int
deriving DecidableEq, Repr

structure QTransform where
  m11 : Qreal
  m12 : Qreal
  m21 : Qreal
  m22 : Qreal
  dx : Qreal
  dy : Qreal
deriving DecidableEq, Repr

/-- `Qt::ClipOperation`. -/
inductive ClipOperation where
  | NoClip
  | ReplaceClip
  | IntersectClip
  | UniteClip
deriving DecidableEq, Repr

/-- `QPaintEngine::PolygonDrawMode`. -/
inductive PolygonDrawMode where
  | OddEvenMode
  | WindingMode
  | ConvexMode
  | PolylineMode
deriving DecidableEq, Repr

/-- `Qt::FillRule`. -/
inductive FillRule where
  | OddEvenFill
  | WindingFill
deriving DecidableEq, Repr

/-- `QTextItem`: the full shaping/formatting object handed to
`drawTextItem`.  Besides the rendered string it exposes font and metric
data, which the recording engine deliberately does not snapshot. -/
structure QTextItem where
  text : String
  font : QFont
  renderFlags : Nat
  ascent : Qreal
  descent : Qreal
  width : Qreal
deriving DecidableEq, Repr

/-- One recorded command.  Each constructor carries exactly the fields of the
corresponding `PaintElement` subclass in the source's anonymous namespace
(`Qt::BGMode`, `QPainter::CompositionMode`, `Qt::ImageConversionFlags` and
`QPainter::RenderHints` are enum/flag payloads carried as `Nat`). -/
inductive PaintElement where
  | EllipseElement (ellipse : QRectF)
  | ImageElement (image : QImage) (rect : QRectF) (sr : QRectF) (flags : Nat)
  | LineElement (lines : List QLine)
  | LineFElement (lines : List QLineF)
  | PathElement (path : QPainterPath)
  | PixmapElement (r : QRectF) (pm : QPixmap) (sr : QRectF)
  | PointElement (pts : List QPoint)
  | PointFElement (pts : List QPointF)
  | PolygonElement (mode : PolygonDrawMode) (pts : List QPoint)
  | PolygonFElement (mode : PolygonDrawMode) (pts : List QPointF)
  | RectElement (rects : List QRect)
  | RectFElement (rects : List QRectF)
  | TextElement (pt : QPointF) (text : String)
  | TiledPixmapElement (rect : QRectF) (pixmap : QPixmap) (pt : QPointF)
  | BackgroundBrushElement (brush : QBrush)
  | BackgroundModeElement (mode : Nat)
  | BrushElement (brush : QBrush)
  | BrushOriginElement (origin : QPointF)
  | ClipRegionElement (op : ClipOperation) (region : QRegion)
  | ClipPathElement (op : ClipOperation) (path : QPainterPath)
  | CompositionElement (mode : Nat)
  | FontElement (font : QFont)
  | TransformElement (t : QTransform)
  | ClipEnabledElement (enabled : Bool)
  | PenElement (pen : QPen)
  | HintsElement (hints : Nat)
deriving DecidableEq, Repr

/-- The element constructors that copy out of a caller-owned buffer
(`for(int i = 0; i < count; i++) _xs << xs[i];`): the buffer is a
pointer into caller memory, modelled as an index function, and the
constructor copies elements `0 .. count-1` eagerly. -/
def snapshot {α : Type} (buf : Nat → α) (count : Nat) : List α :=
  (List.range count).map buf

def mkLineElement (lines : Nat → QLine) (linecount : Nat) : PaintElement :=
  .LineElement (snapshot lines linecount)

def mkLineFElement (lines : Nat → QLineF) (linecount : Nat) : PaintElement :=
  .LineFElement (snapshot lines linecount)

def mkPointElement (points : Nat → QPoint) (pointcount : Nat) : PaintElement :=
  .PointElement (snapshot points pointcount)

def mkPointFElement (points : Nat → QPointF) (pointcount : Nat) : PaintElement :=
  .PointFElement (snapshot points pointcount)

def mkPolygonElement (points : Nat → QPoint) (pointcount : Nat)
    (mode : PolygonDrawMode) : PaintElement :=
  .PolygonElement mode (snapshot points pointcount)

def mkPolygonFElement (points : Nat → QPointF) (pointcount : Nat)
    (mode : PolygonDrawMode) : PaintElement :=
  .PolygonFElement mode (snapshot points pointcount)

def mkRectElement (rects : Nat → QRect) (rectcount : Nat) : PaintElement :=
  .RectElement (snapshot rects rectcount)

def mkRectFElement (rects : Nat → QRectF) (rectcount : Nat) : PaintElement :=
  .RectFElement (snapshot rects rectcount)

/-- `TextElement::TextElement(const QPointF& pt, const QTextItem& txt)`:
stores the position and only `txt.text()`, dropping the rest of the
shaping/formatting object. -/
def mkTextElement (pt : QPointF) (txt : QTextItem) : PaintElement :=
  .TextElement pt txt.text

/-- One primitive call on the replay target's capability interface (the
`QPainter` methods invoked by the `paint` member functions). -/
inductive PainterCall where
  | drawEllipse (r : QRectF)
  | drawImage (rect : QRectF) (image : QImage) (sr : QRectF) (flags : Nat)
  | drawLines (lines : List QLine)
  | drawLinesF (lines : List QLineF)
  | drawPath (path : QPainterPath)
  | drawPixmap (r : QRectF) (pm : QPixmap) (sr : QRectF)
  | drawPoints (pts : List QPoint)
  | drawPointsF (pts : List QPointF)
  | drawPolygon (pts : List QPoint) (rule : FillRule)
  | drawPolygonF (pts : List QPointF) (rule : FillRule)
  | drawConvexPolygon (pts : List QPoint)
  | drawConvexPolygonF (pts : List QPointF)
  | drawPolyline (pts : List QPoint)
  | drawPolylineF (pts : List QPointF)
  | drawRects (rects : List QRect)
  | drawRectsF (rects : List QRectF)
  | drawText (pt : QPointF) (text : String)
  | drawTiledPixmap (rect : QRectF) (pixmap : QPixmap) (pt : QPointF)
  | setBackground (brush : QBrush)
  | setBackgroundMode (mode : Nat)
  | setBrush (brush : QBrush)
  | setBrushOrigin (origin : QPointF)
  | setClipRegion (region : QRegion) (op : ClipOperation)
  | setClipPath (path : QPainterPath) (op : ClipOperation)
  | setCompositionMode (mode : Nat)
  | setFont (font : QFont)
  | setWorldTransform (t : QTransform)
  | setClipping (enabled : Bool)
  | setPen (pen : QPen)
  | setRenderHints (hints : Nat)
deriving DecidableEq, Repr

/-- The single `QPainter` call each element's `paint(QPainter&)` issues,
built from the element's stored fields alone; for poly elements, `paint`
switches on the stored `_mode`. -/
def paintCall : PaintElement → PainterCall
  | .EllipseElement r => .drawEllipse r
  | .ImageElement image rect sr flags => .drawImage rect image sr flags
  | .LineElement ls => .drawLines ls
  | .LineFElement ls => .drawLinesF ls
  | .PathElement p => .drawPath p
  | .PixmapElement r pm sr => .drawPixmap r pm sr
  | .PointElement pts => .drawPoints pts
  | .PointFElement pts => .drawPointsF pts
  | .PolygonElement mode pts =>
      match mode with
      | .OddEvenMode => .drawPolygon pts .OddEvenFill
      | .WindingMode => .drawPolygon pts .WindingFill
      | .ConvexMode => .drawConvexPolygon pts
      | .PolylineMode => .drawPolyline pts
  | .PolygonFElement mode pts =>
      match mode with
      | .OddEvenMode => .drawPolygonF pts .OddEvenFill
      | .WindingMode => .drawPolygonF pts .WindingFill
      | .ConvexMode => .drawConvexPolygonF pts
      | .PolylineMode => .drawPolylineF pts
  | .RectElement rs => .drawRects rs
  | .RectFElement rs => .drawRectsF rs
  | .TextElement pt text => .drawText pt text
  | .TiledPixmapElement rect pixmap pt => .drawTiledPixmap rect pixmap pt
  | .BackgroundBrushElement b => .setBackground b
  | .BackgroundModeElement m => .setBackgroundMode m
  | .BrushElement b => .setBrush b
  | .BrushOriginElement o => .setBrushOrigin o
  | .ClipRegionElement op region => .setClipRegion region op
  | .ClipPathElement op path => .setClipPath path op
  | .CompositionElement m => .setCompositionMode m
  | .FontElement f => .setFont f
  | .TransformElement t => .setWorldTransform t
  | .ClipEnabledElement b => .setClipping b
  | .PenElement p => .setPen p
  | .HintsElement h => .setRenderHints h

/-- The replay target: a concrete renderer observed as the ordered sequence of
capability calls it receives. -/
structure QPainter where
  calls : List PainterCall
deriving DecidableEq, Repr

/-- `PaintElement::paint(QPainter&)`: issues the element's one primitive call
on the painter; it reads only the element's stored fields and writes none of
them. -/
def PaintElement.paint (e : PaintElement) (painter : QPainter) : QPainter :=
  { calls := painter.calls ++ [paintCall e] }

/-- The recording surface: owner of the ordered command log. -/
structure RecordPaintDevice where
  elements : List PaintElement
deriving DecidableEq, Repr

/-- Modelled from the spec: `RecordPaintDevice::addElement` lives in
`recordpaintdevice.cpp`, which is not part of the provided sources; per the
spec the command log is append-only and "`append(command)` adds one Command
to the end of the sequence". -/
def RecordPaintDevice.addElement (d : RecordPaintDevice) (e : PaintElement) :
    RecordPaintDevice :=
  { elements := d.elements ++ [e] }

/-- The generic `QPaintDevice*` handle passed to `begin`: either really a
`RecordPaintDevice`, or some other paint device (identified by a tag). -/
inductive QPaintDevice where
  | recordDevice (d : RecordPaintDevice)
  | otherDevice (id : Nat)
deriving DecidableEq, Repr

/-- Spec-side notion of resolving a generic device handle to a valid
recording surface (what a checked `dynamic_cast` would compute); the source's
`begin` performs an unchecked C cast instead and never consults this. -/
def resolveRecordPaintDevice : QPaintDevice → Option RecordPaintDevice
  | .recordDevice d => some d
  | .otherDevice _ => none

/-- The recording engine's own state: `_pdev`, the raw bound device handle
(`0`, i.e. `none`, after construction). -/
structure RecordPaintEngine where
  pdev : Option QPaintDevice
deriving DecidableEq, Repr

/-- `RecordPaintEngine::RecordPaintEngine()`: `_pdev(0)`. -/
def RecordPaintEngine.initial : RecordPaintEngine := { pdev := none }

/-- `RecordPaintEngine::begin(QPaintDevice*)`: stores the handle via an old
style C cast — unchecked, whatever the handle really is — and returns `1`. -/
def RecordPaintEngine.begin (_e : RecordPaintEngine) (pdev : QPaintDevice) :
    Bool × RecordPaintEngine :=
  (true, { pdev := some pdev })

/-- `RecordPaintEngine::end()` (renamed: `end` is reserved in Lean): the body
is just `return 1;` — it neither clears `_pdev` nor touches the device. -/
def RecordPaintEngine.endSession (e : RecordPaintEngine) :
    Bool × RecordPaintEngine :=
  (true, e)

/-- `QPaintEngine::User`, the base of the user-defined engine type range. -/
def userTypeBase : Nat := 50

/-- The identifiers of Qt's built-in paint engine types
(`QPaintEngine::Type`): X11 = 0, Windows, QuickDraw, CoreGraphics,
MacPrinter, QWindowSystem, PostScript, OpenGL, Picture, SVG, Raster,
Direct3D, Pdf, OpenVG, OpenGL2, PaintBuffer, Blitter, Direct2D = 17. -/
def builtinEngineTypes : List Nat :=
  [0, 1, 2, 3, 4, 5, 6, 7, 8, 9, 10, 11, 12, 13, 14, 15, 16, 17]

/-- `RecordPaintEngine::type() const`:
`return QPaintEngine::Type(int(QPaintEngine::User)+34);`. -/
def RecordPaintEngine.typeOf (_e : RecordPaintEngine) : Nat :=
  userTypeBase + 34

/-- The drawing notifications: each forwards to
`_pdev->addElement(new ...Element(...))`.  They are stated on the bound
`RecordPaintDevice` the engine's `_pdev` points at. -/
def RecordPaintEngine.drawEllipseF (rect : QRectF) (d : RecordPaintDevice) :
    RecordPaintDevice :=
  d.addElement (.EllipseElement rect)

def RecordPaintEngine.drawImage (rectangle : QRectF) (image : QImage)
    (sr : QRectF) (flags : Nat) (d : RecordPaintDevice) : RecordPaintDevice :=
  d.addElement (.ImageElement image rectangle sr flags)

def RecordPaintEngine.drawLinesF (lines : Nat → QLineF) (lineCount : Nat)
    (d : RecordPaintDevice) : RecordPaintDevice :=
  d.addElement (mkLineFElement lines lineCount)

def RecordPaintEngine.drawLines (lines : Nat → QLine) (lineCount : Nat)
    (d : RecordPaintDevice) : RecordPaintDevice :=
  d.addElement (mkLineElement lines lineCount)

def RecordPaintEngine.drawPath (path : QPainterPath) (d : RecordPaintDevice) :
    RecordPaintDevice :=
  d.addElement (.PathElement path)

def RecordPaintEngine.drawPixmap (r : QRectF) (pm : QPixmap) (sr : QRectF)
    (d : RecordPaintDevice) : RecordPaintDevice :=
  d.addElement (.PixmapElement r pm sr)

def RecordPaintEngine.drawPointsF (points : Nat → QPointF) (pointCount : Nat)
    (d : RecordPaintDevice) : RecordPaintDevice :=
  d.addElement (mkPointFElement points pointCount)

def RecordPaintEngine.drawPoints (points : Nat → QPoint) (pointCount : Nat)
    (d : RecordPaintDevice) : RecordPaintDevice :=
  d.addElement (mkPointElement points pointCount)

def RecordPaintEngine.drawPolygonF (points : Nat → QPointF) (pointCount : Nat)
    (mode : PolygonDrawMode) (d : RecordPaintDevice) : RecordPaintDevice :=
  d.addElement (mkPolygonFElement points pointCount mode)

def RecordPaintEngine.drawPolygon (points : Nat → QPoint) (pointCount : Nat)
    (mode : PolygonDrawMode) (d : RecordPaintDevice) : RecordPaintDevice :=
  d.addElement (mkPolygonElement points pointCount mode)

def RecordPaintEngine.drawRectsF (rects : Nat → QRectF) (rectCount : Nat)
    (d : RecordPaintDevice) : RecordPaintDevice :=
  d.addElement (mkRectFElement rects rectCount)

def RecordPaintEngine.drawRects (rects : Nat → QRect) (rectCount : Nat)
    (d : RecordPaintDevice) : RecordPaintDevice :=
  d.addElement (mkRectElement rects rectCount)

def RecordPaintEngine.drawTextItem (p : QPointF) (textItem : QTextItem)
    (d : RecordPaintDevice) : RecordPaintDevice :=
  d.addElement (mkTextElement p textItem)

def RecordPaintEngine.drawTiledPixmap (rect : QRectF) (pixmap : QPixmap)
    (p : QPointF) (d : RecordPaintDevice) : RecordPaintDevice :=
  d.addElement (.TiledPixmapElement rect pixmap p)

/-- `QPaintEngine::DirtyFlag` bit values. -/
def DirtyPen : Nat := 1
def DirtyBrush : Nat := 2
def DirtyBrushOrigin : Nat := 4
def DirtyFont : Nat := 8
def DirtyBackground : Nat := 16
def DirtyBackgroundMode : Nat := 32
def DirtyTransform : Nat := 64
def DirtyClipRegion : Nat := 128
def DirtyClipPath : Nat := 256
def DirtyHints : Nat := 512
def DirtyCompositionMode : Nat := 1024
def DirtyClipEnabled : Nat := 2048

/-- `QPaintEngineState`: the dirty-flag bit-set (`state()`) together with the
current-value accessors the engine may pull from. -/
structure QPaintEngineState where
  state : Nat
  backgroundBrush : QBrush
  backgroundMode : Nat
  brush : QBrush
  brushOrigin : QPointF
  clipOperation : ClipOperation
  clipRegion : QRegion
  clipPath : QPainterPath
  compositionMode : Nat
  font : QFont
  transform : QTransform
  isClipEnabled : Bool
  pen : QPen
  renderHints : Nat
deriving DecidableEq, Repr

/-- `RecordPaintEngine::updateState`: one conditional `addElement` per dirty
flag, in the source's textual order. -/
def RecordPaintEngine.updateState (state : QPaintEngineState)
    (d : RecordPaintDevice) : RecordPaintDevice :=
  let flags := state.state
  let d := if flags &&& DirtyBackground ≠ 0 then
    d.addElement (.BackgroundBrushElement state.backgroundBrush) else d
  let d := if flags &&& DirtyBackgroundMode ≠ 0 then
    d.addElement (.BackgroundModeElement state.backgroundMode) else d
  let d := if flags &&& DirtyBrush ≠ 0 then
    d.addElement (.BrushElement state.brush) else d
  let d := if flags &&& DirtyBrushOrigin ≠ 0 then
    d.addElement (.BrushOriginElement state.brushOrigin) else d
  let d := if flags &&& DirtyClipRegion ≠ 0 then
    d.addElement (.ClipRegionElement state.clipOperation state.clipRegion) else d
  let d := if flags &&& DirtyClipPath ≠ 0 then
    d.addElement (.ClipPathElement state.clipOperation state.clipPath) else d
  let d := if flags &&& DirtyCompositionMode ≠ 0 then
    d.addElement (.CompositionElement state.compositionMode) else d
  let d := if flags &&& DirtyFont ≠ 0 then
    d.addElement (.FontElement state.font) else d
  let d := if flags &&& DirtyTransform ≠ 0 then
    d.addElement (.TransformElement state.transform) else d
  let d := if flags &&& DirtyClipEnabled ≠ 0 then
    d.addElement (.ClipEnabledElement state.isClipEnabled) else d
  let d := if flags &&& DirtyPen ≠ 0 then
    d.addElement (.PenElement state.pen) else d
  let d := if flags &&& DirtyHints ≠ 0 then
    d.addElement (.HintsElement state.renderHints) else d
  d

/-- Spec-side description of the dirty-flag expansion (refinement target):
exactly one state command per set flag, carrying the current attribute value,
in the spec's enumerated order — background fill style, background-fill
toggle, foreground fill style, fill-pattern origin, clip region, clip path,
compositing mode, font, transform, clip-enabled toggle, stroke style, render
hints. -/
def specStateCommands (s : QPaintEngineState) : List PaintElement :=
  (if s.state &&& DirtyBackground ≠ 0 then
    [PaintElement.BackgroundBrushElement s.backgroundBrush] else []) ++
  (if s.state &&& DirtyBackgroundMode ≠ 0 then
    [PaintElement.BackgroundModeElement s.backgroundMode] else []) ++
  (if s.state &&& DirtyBrush ≠ 0 then
    [PaintElement.BrushElement s.brush] else []) ++
  (if s.state &&& DirtyBrushOrigin ≠ 0 then
    [PaintElement.BrushOriginElement s.brushOrigin] else []) ++
  (if s.state &&& DirtyClipRegion ≠ 0 then
    [PaintElement.ClipRegionElement s.clipOperation s.clipRegion] else []) ++
  (if s.state &&& DirtyClipPath ≠ 0 then
    [PaintElement.ClipPathElement s.clipOperation s.clipPath] else []) ++
  (if s.state &&& DirtyCompositionMode ≠ 0 then
    [PaintElement.CompositionElement s.compositionMode] else []) ++
  (if s.state &&& DirtyFont ≠ 0 then
    [PaintElement.FontElement s.font] else []) ++
  (if s.state &&& DirtyTransform ≠ 0 then
    [PaintElement.TransformElement s.transform] else []) ++
  (if s.state &&& DirtyClipEnabled ≠ 0 then
    [PaintElement.ClipEnabledElement s.isClipEnabled] else []) ++
  (if s.state &&& DirtyPen ≠ 0 then
    [PaintElement.PenElement s.pen] else []) ++
  (if s.state &&& DirtyHints ≠ 0 then
    [PaintElement.HintsElement s.renderHints] else [])

/-! ### Example values used by concrete witnesses -/

def exampleBrush : QBrush := ⟨3⟩

def exampleBrush2 : QBrush := ⟨4⟩

def examplePen : QPen := ⟨5⟩

def exampleFont : QFont := ⟨"Serif", 12⟩

def exampleFont2 : QFont := ⟨"Sans", 9⟩

def exampleRegion : QRegion := ⟨6⟩

def examplePath : QPainterPath := ⟨7⟩

def exampleTransform : QTransform := ⟨1, 0, 0, 1, 5, 6⟩

def examplePoint : QPointF := ⟨2, 3⟩

def exampleDevice : RecordPaintDevice := ⟨[]⟩

/-- A fully populated engine state with the given dirty-flag bit-set. -/
def exampleState (flags : Nat) : QPaintEngineState :=
  { state := flags
    backgroundBrush := exampleBrush
    backgroundMode := 1
    brush := exampleBrush2
    brushOrigin := examplePoint
    clipOperation := ClipOperation.IntersectClip
    clipRegion := exampleRegion
    clipPath := examplePath
    compositionMode := 2
    font := exampleFont
    transform := exampleTransform
    isClipEnabled := true
    pen := examplePen
    renderHints := 3 }

/-- A caller-owned line buffer holding the batch `[(0,0)-(1,1), (2,2)-(3,3)]`. -/
def exampleLineBuf : Nat → QLineF := fun i =>
  if i = 0 then ⟨0, 0, 1, 1⟩ else if i = 1 then ⟨2, 2, 3, 3⟩ else ⟨0, 0, 0, 0⟩

/-- The same buffer after the caller mutated the memory beyond the batch. -/
def exampleLineBufMut : Nat → QLineF := fun i =>
  if i = 0 then ⟨0, 0, 1, 1⟩ else if i = 1 then ⟨2, 2, 3, 3⟩ else ⟨9, 9, 9, 9⟩

def exampleTextItem : QTextItem := ⟨"hello", exampleFont, 0, 10, 2, 30⟩

def exampleTextItem2 : QTextItem := ⟨"hello", exampleFont2, 7, 11, 3, 99⟩

/-! ### Helper lemmas -/

theorem addElement_if_elements (c : Prop) [Decidable c] (d : RecordPaintDevice)
    (e : PaintElement) :
    (if c then d.addElement e else d).elements =
      d.elements ++ (if c then [e] else []) := by
  split <;> simp [RecordPaintDevice.addElement]

/-- `updateState` appends exactly the spec-ordered expansion of the dirty
flags to the end of the log. -/
theorem updateState_elements (s : QPaintEngineState) (d : RecordPaintDevice) :
    (RecordPaintEngine.updateState s d).elements =
      d.elements ++ specStateCommands s := by
  simp only [RecordPaintEngine.updateState, specStateCommands]
  simp only [addElement_if_elements]
  simp only [List.append_assoc]

/-! ### Claim theorems -/

/-- C1: for every state-change notification, `updateState` appends exactly one
state command per set dirty flag, carrying the current value of that
attribute, in the fixed enumerated order (background fill style,
background-fill toggle, foreground fill style, fill-pattern origin, clip
region, clip path, compositing mode, font, transform, clip-enabled toggle,
stroke style, render hints); unset flags produce no command.  In particular a
notification with exactly the font and transform flags set appends exactly
two commands, the font command before the transform command. -/
theorem updateState_dirty_flag_expansion (s : QPaintEngineState)
    (d : RecordPaintDevice) :
    (RecordPaintEngine.updateState s d).elements =
      d.elements ++ specStateCommands s ∧
    (s.state = DirtyFont ||| DirtyTransform →
      (RecordPaintEngine.updateState s d).elements =
        d.elements ++ [PaintElement.FontElement s.font,
          PaintElement.TransformElement s.transform]) := by
  refine ⟨updateState_elements s d, fun h => ?_⟩
  rw [updateState_elements]
  congr 1
  simp only [specStateCommands, h]
  simp (disch := decide) only [if_pos, if_neg]
  simp

/-- Witness for C1: the concrete {font, transform} notification appends
exactly the font command followed by the transform command. -/
theorem updateState_dirty_flag_expansion_witness :
    (exampleState (DirtyFont ||| DirtyTransform)).state =
      DirtyFont ||| DirtyTransform ∧
    (RecordPaintEngine.updateState (exampleState (DirtyFont ||| DirtyTransform))
        exampleDevice).elements =
      exampleDevice.elements ++ [PaintElement.FontElement exampleFont,
        PaintElement.TransformElement exampleTransform] :=
  ⟨rfl,
   (updateState_dirty_flag_expansion (exampleState (DirtyFont ||| DirtyTransform))
     exampleDevice).2 rfl⟩

/-- C9: when both the clip-region and clip-path dirty flags are set, the two
appended clip commands are adjacent and both carry the one current clip
operation of the notification (`state.clipOperation()`), not independent
operations per clip kind. -/
theorem clip_region_path_share_operation (s : QPaintEngineState)
    (d : RecordPaintDevice) (hr : s.state &&& DirtyClipRegion ≠ 0)
    (hp : s.state &&& DirtyClipPath ≠ 0) :
    ∃ pre post,
      (RecordPaintEngine.updateState s d).elements =
        pre ++ [PaintElement.ClipRegionElement s.clipOperation s.clipRegion,
                PaintElement.ClipPathElement s.clipOperation s.clipPath] ++
          post := by
  refine ⟨d.elements ++
    (if s.state &&& DirtyBackground ≠ 0 then
      [PaintElement.BackgroundBrushElement s.backgroundBrush] else []) ++
    (if s.state &&& DirtyBackgroundMode ≠ 0 then
      [PaintElement.BackgroundModeElement s.backgroundMode] else []) ++
    (if s.state &&& DirtyBrush ≠ 0 then
      [PaintElement.BrushElement s.brush] else []) ++
    (if s.state &&& DirtyBrushOrigin ≠ 0 then
      [PaintElement.BrushOriginElement s.brushOrigin] else []),
    (if s.state &&& DirtyCompositionMode ≠ 0 then
      [PaintElement.CompositionElement s.compositionMode] else []) ++
    (if s.state &&& DirtyFont ≠ 0 then
      [PaintElement.FontElement s.font] else []) ++
    (if s.state &&& DirtyTransform ≠ 0 then
      [PaintElement.TransformElement s.transform] else []) ++
    (if s.state &&& DirtyClipEnabled ≠ 0 then
      [PaintElement.ClipEnabledElement s.isClipEnabled] else []) ++
    (if s.state &&& DirtyPen ≠ 0 then
      [PaintElement.PenElement s.pen] else []) ++
    (if s.state &&& DirtyHints ≠ 0 then
      [PaintElement.HintsElement s.renderHints] else []), ?_⟩
  rw [updateState_elements]
  simp only [specStateCommands, if_pos hr, if_pos hp]
  simp [List.append_assoc]

/-- Witness for C9: a concrete notification with both clip flags set yields
the two clip commands sharing the single operation `IntersectClip`. -/
theorem clip_region_path_share_operation_witness :
    (exampleState (DirtyClipRegion ||| DirtyClipPath)).state &&&
        DirtyClipRegion ≠ 0 ∧
    (exampleState (DirtyClipRegion ||| DirtyClipPath)).state &&&
        DirtyClipPath ≠ 0 ∧
    ∃ pre post,
      (RecordPaintEngine.updateState
          (exampleState (DirtyClipRegion ||| DirtyClipPath))
          exampleDevice).elements =
        pre ++ [PaintElement.ClipRegionElement ClipOperation.IntersectClip
                  exampleRegion,
                PaintElement.ClipPathElement ClipOperation.IntersectClip
                  examplePath] ++ post :=
  ⟨by decide, by decide,
   clip_region_path_share_operation
     (exampleState (DirtyClipRegion ||| DirtyClipPath)) exampleDevice
     (by decide) (by decide)⟩

/-- C2 counterexample: a device handle that does not resolve to a valid
recording surface still gets `true` (success) back from `begin` — the source
performs an unchecked C cast and unconditionally returns `1`, so the claim
that `begin` returns `false` in this case is refuted. -/
theorem begin_returns_true_on_unresolvable :
    resolveRecordPaintDevice (QPaintDevice.otherDevice 0) = none ∧
    (RecordPaintEngine.initial.begin (QPaintDevice.otherDevice 0)).1 = true :=
  ⟨rfl, rfl⟩

/-- C2 amended: `begin(surface)` binds the supplied handle via an unchecked
cast and always returns success (`true`), whether or not the handle resolves
to a valid recording surface; failure is never signaled (and never via an
exception). -/
theorem begin_always_succeeds_unchecked (e : RecordPaintEngine)
    (pdev : QPaintDevice) :
    e.begin pdev = (true, { pdev := some pdev }) := rfl

/-- C5 counterexample: after a successful `begin`, calling `end` leaves the
engine still bound (`_pdev` is not reset to the null/Idle state), refuting
the claim that `end()` unbinds the engine. -/
theorem endSession_keeps_binding_cex :
    ((RecordPaintEngine.initial.begin
        (QPaintDevice.recordDevice exampleDevice)).2.endSession).2.pdev ≠
      none := by decide

/-- C5 amended: `end()` returns success and performs no cleanup of recorded
commands — the engine state, including the bound surface and its command log,
is exactly as before the call — but it does not unbind: the bound-surface
pointer survives `end()`. -/
theorem endSession_success_no_cleanup (e : RecordPaintEngine) :
    (e.endSession).1 = true ∧ (e.endSession).2 = e ∧
    (∀ dev : RecordPaintDevice,
      e.pdev = some (QPaintDevice.recordDevice dev) →
        (e.endSession).2.pdev = some (QPaintDevice.recordDevice dev)) :=
  ⟨rfl, rfl, fun _ h => h⟩

/-- Witness for C5's amended theorem: a concretely bound engine keeps its
surface — and hence that surface's command log — across `end()`. -/
theorem endSession_success_no_cleanup_witness :
    ((RecordPaintEngine.initial.begin
        (QPaintDevice.recordDevice exampleDevice)).2.pdev =
      some (QPaintDevice.recordDevice exampleDevice)) ∧
    (((RecordPaintEngine.initial.begin
        (QPaintDevice.recordDevice exampleDevice)).2.endSession).2.pdev =
      some (QPaintDevice.recordDevice exampleDevice)) :=
  ⟨rfl,
   (endSession_success_no_cleanup
     (RecordPaintEngine.initial.begin
       (QPaintDevice.recordDevice exampleDevice)).2).2.2 exampleDevice rfl⟩

/-- C3: every batch drawing notification (line batch, point batch, rectangle
batch, polygon) appends one command whose snapshot is a copy of all `n`
elements taken from the caller-owned buffer before the call returns; replay
issues the batch draw call with exactly those `n` original elements, and the
recorded result depends only on the first `n` buffer entries at call time
(so later mutation or deallocation of the buffer cannot change replay). -/
theorem batch_snapshot_isolation (bufL : Nat → QLineF) (bufP : Nat → QPointF)
    (bufR : Nat → QRectF) (bufG : Nat → QPointF) (mode : PolygonDrawMode)
    (n : Nat) (d : RecordPaintDevice) :
    ((RecordPaintEngine.drawLinesF bufL n d).elements =
        d.elements ++ [PaintElement.LineFElement (snapshot bufL n)] ∧
      paintCall (PaintElement.LineFElement (snapshot bufL n)) =
        PainterCall.drawLinesF (snapshot bufL n)) ∧
    ((RecordPaintEngine.drawPointsF bufP n d).elements =
        d.elements ++ [PaintElement.PointFElement (snapshot bufP n)] ∧
      paintCall (PaintElement.PointFElement (snapshot bufP n)) =
        PainterCall.drawPointsF (snapshot bufP n)) ∧
    ((RecordPaintEngine.drawRectsF bufR n d).elements =
        d.elements ++ [PaintElement.RectFElement (snapshot bufR n)] ∧
      paintCall (PaintElement.RectFElement (snapshot bufR n)) =
        PainterCall.drawRectsF (snapshot bufR n)) ∧
    (RecordPaintEngine.drawPolygonF bufG n mode d).elements =
      d.elements ++ [PaintElement.PolygonFElement mode (snapshot bufG n)] ∧
    (∀ bufL' : Nat → QLineF, (∀ i, i < n → bufL i = bufL' i) →
      RecordPaintEngine.drawLinesF bufL n d =
        RecordPaintEngine.drawLinesF bufL' n d) := by
  refine ⟨⟨rfl, rfl⟩, ⟨rfl, rfl⟩, ⟨rfl, rfl⟩, rfl, ?_⟩
  intro bufL' hagree
  have hsnap : snapshot bufL n = snapshot bufL' n := by
    unfold snapshot
    refine List.map_congr_left ?_
    intro i hi
    exact hagree i (List.mem_range.mp hi)
  unfold RecordPaintEngine.drawLinesF mkLineFElement
  rw [hsnap]

/-- Witness for C3: the spec's concrete batch `[(0,0)-(1,1), (2,2)-(3,3)]`:
recording from the original buffer and from the buffer whose memory beyond
the batch was later rewritten yields the identical log, holding exactly the
two original segments. -/
theorem batch_snapshot_isolation_witness :
    RecordPaintEngine.drawLinesF exampleLineBuf 2 exampleDevice =
      RecordPaintEngine.drawLinesF exampleLineBufMut 2 exampleDevice ∧
    (RecordPaintEngine.drawLinesF exampleLineBuf 2 exampleDevice).elements =
      [PaintElement.LineFElement [⟨0, 0, 1, 1⟩, ⟨2, 2, 3, 3⟩]] :=
  ⟨(batch_snapshot_isolation exampleLineBuf (fun _ => examplePoint)
      (fun _ => ⟨0, 0, 0, 0⟩) (fun _ => examplePoint) PolygonDrawMode.OddEvenMode
      2 exampleDevice).2.2.2.2 exampleLineBufMut
      (by
        intro i hi
        interval_cases i <;> rfl),
   by decide⟩

/-- C4: polygon replay dispatches on the stored draw-mode discriminator
alone: even-odd mode replays via the even-odd fill primitive, winding mode
via the non-zero-winding fill primitive, convex mode via the convex-fill
primitive, polyline mode via the open polyline primitive — for every point
list whatsoever (the mode is never re-derived from the geometry, so a
convex-mode command replays via the convex-fill primitive even when its
points are non-convex). -/
theorem polygon_mode_dispatch (pts : List QPointF) (ptsI : List QPoint) :
    paintCall (PaintElement.PolygonFElement PolygonDrawMode.OddEvenMode pts) =
      PainterCall.drawPolygonF pts FillRule.OddEvenFill ∧
    paintCall (PaintElement.PolygonFElement PolygonDrawMode.WindingMode pts) =
      PainterCall.drawPolygonF pts FillRule.WindingFill ∧
    paintCall (PaintElement.PolygonFElement PolygonDrawMode.ConvexMode pts) =
      PainterCall.drawConvexPolygonF pts ∧
    paintCall (PaintElement.PolygonFElement PolygonDrawMode.PolylineMode pts) =
      PainterCall.drawPolylineF pts ∧
    paintCall (PaintElement.PolygonElement PolygonDrawMode.OddEvenMode ptsI) =
      PainterCall.drawPolygon ptsI FillRule.OddEvenFill ∧
    paintCall (PaintElement.PolygonElement PolygonDrawMode.WindingMode ptsI) =
      PainterCall.drawPolygon ptsI FillRule.WindingFill ∧
    paintCall (PaintElement.PolygonElement PolygonDrawMode.ConvexMode ptsI) =
      PainterCall.drawConvexPolygon ptsI ∧
    paintCall (PaintElement.PolygonElement PolygonDrawMode.PolylineMode ptsI) =
      PainterCall.drawPolyline ptsI :=
  ⟨rfl, rfl, rfl, rfl, rfl, rfl, rfl, rfl⟩

/-- C6: the capability-type query returns the same identifier for every
engine value, the identifier is at or above the user-defined base
(`QPaintEngine::User`), and it differs from every built-in renderer
identifier. -/
theorem engine_type_distinct_from_builtins (e e' : RecordPaintEngine) :
    e.typeOf = e'.typeOf ∧ userTypeBase ≤ e.typeOf ∧
    e.typeOf ∉ builtinEngineTypes := by
  refine ⟨rfl, ?_, ?_⟩
  · show userTypeBase ≤ userTypeBase + 34
    decide
  · show userTypeBase + 34 ∉ builtinEngineTypes
    decide

/-- C7: a text drawing notification appends one command storing only the
position and the rendered string extracted from the text-run object; replay
draws text with exactly that position and string; and any two text-run
objects with the same rendered string — whatever their shaping/formatting
fields — produce the identical command. -/
theorem text_snapshot_only_string (p : QPointF) (txt : QTextItem)
    (d : RecordPaintDevice) :
    (RecordPaintEngine.drawTextItem p txt d).elements =
      d.elements ++ [PaintElement.TextElement p txt.text] ∧
    paintCall (PaintElement.TextElement p txt.text) =
      PainterCall.drawText p txt.text ∧
    (∀ txt' : QTextItem, txt.text = txt'.text →
      mkTextElement p txt = mkTextElement p txt') := by
  refine ⟨rfl, rfl, ?_⟩
  intro txt' h
  simp [mkTextElement, h]

/-- Witness for C7: two text runs with equal rendered string but different
font and metrics record the identical command. -/
theorem text_snapshot_only_string_witness :
    exampleTextItem.text = exampleTextItem2.text ∧
    mkTextElement examplePoint exampleTextItem =
      mkTextElement examplePoint exampleTextItem2 :=
  ⟨rfl,
   (text_snapshot_only_string examplePoint exampleTextItem exampleDevice).2.2
     exampleTextItem2 rfl⟩

/-- C8: replay of a command reads only the command's own immutable stored
snapshot: replaying the same command twice in sequence issues the same
primitive call with the same arguments both times, and the call a command
emits is independent of the target surface's prior call history. -/
theorem replay_reads_only_snapshot (e : PaintElement) (p q : QPainter) :
    (e.paint (e.paint p)).calls = p.calls ++ [paintCall e, paintCall e] ∧
    (e.paint p).calls.drop p.calls.length =
      (e.paint q).calls.drop q.calls.length := by
  constructor
  · simp [PaintElement.paint]
  · simp [PaintElement.paint, List.drop_left]

/-- C10: every batch drawing notification with element count zero still
appends exactly one command whose stored snapshot is the empty sequence, and
replay issues one batch draw call carrying zero elements. -/
theorem zero_count_batch_appends_one (bufL : Nat → QLineF)
    (bufLi : Nat → QLine) (bufP : Nat → QPointF) (bufPi : Nat → QPoint)
    (bufR : Nat → QRectF) (bufRi : Nat → QRect) (mode : PolygonDrawMode)
    (d : RecordPaintDevice) :
    ((RecordPaintEngine.drawLinesF bufL 0 d).elements =
        d.elements ++ [PaintElement.LineFElement []] ∧
      paintCall (PaintElement.LineFElement []) = PainterCall.drawLinesF []) ∧
    ((RecordPaintEngine.drawLines bufLi 0 d).elements =
        d.elements ++ [PaintElement.LineElement []] ∧
      paintCall (PaintElement.LineElement []) = PainterCall.drawLines []) ∧
    ((RecordPaintEngine.drawPointsF bufP 0 d).elements =
        d.elements ++ [PaintElement.PointFElement []] ∧
      paintCall (PaintElement.PointFElement []) = PainterCall.drawPointsF []) ∧
    ((RecordPaintEngine.drawPoints bufPi 0 d).elements =
        d.elements ++ [PaintElement.PointElement []] ∧
      paintCall (PaintElement.PointElement []) = PainterCall.drawPoints []) ∧
    ((RecordPaintEngine.drawRectsF bufR 0 d).elements =
        d.elements ++ [PaintElement.RectFElement []] ∧
      paintCall (PaintElement.RectFElement []) = PainterCall.drawRectsF []) ∧
    ((RecordPaintEngine.drawRects bufRi 0 d).elements =
        d.elements ++ [PaintElement.RectElement []] ∧
      paintCall (PaintElement.RectElement []) = PainterCall.drawRects []) ∧
    ((RecordPaintEngine.drawPolygonF bufP 0 mode d).elements =
        d.elements ++ [PaintElement.PolygonFElement mode []] ∧
      paintCall (PaintElement.PolygonFElement mode []) ∈
        [PainterCall.drawPolygonF [] FillRule.OddEvenFill,
         PainterCall.drawPolygonF [] FillRule.WindingFill,
         PainterCall.drawConvexPolygonF [], PainterCall.drawPolylineF []]) ∧
    (RecordPaintEngine.drawPolygon bufPi 0 mode d).elements =
      d.elements ++ [PaintElement.PolygonElement mode []] := by
  refine ⟨⟨rfl, rfl⟩, ⟨rfl, rfl⟩, ⟨rfl, rfl⟩, ⟨rfl, rfl⟩, ⟨rfl, rfl⟩,
    ⟨rfl, rfl⟩, ⟨rfl, ?_⟩, rfl⟩
  cases mode <;> simp [paintCall]
